import Mathlib

/-!
Shallow embedding of the hand-written interpreter core of `parser.tab.c`
(the toy-language tree-walking interpreter: AST node model, expression
evaluator, statement executor, vertical tree renderer, symbol store).

The C program writes to three files: `out.txt` (runtime effects, `yyout`),
`tree.txt` (per-statement tree renderings, `yytree`) and `outError.txt`
(diagnostics, `yyError`).  We model the run as a state carrying the
256-slot symbol table, a single ordered event stream (so that the relative
order of writes to the three sinks stays observable) and the lexer's
current line number `yylineno` (read by `yyerror`, never changed during
execution).  The three channels of the run are the per-sink projections of
the event stream.

C `int` arithmetic is modelled by unbounded `Int` (no claim exercises
overflow); C integer division truncates toward zero, which is `Int.tdiv`.
A C `Node*` that may be NULL is modelled by the dedicated `Node.null`
constructor; every dereference in the source is guarded by a null check.
-/

/-- One record written to one of the three output sinks. -/
inductive Event where
  /-- a line written to `yyout` (`out.txt`), the effects channel -/
  | out (line : String)
  /-- one full block written to `yytree` (`tree.txt`) by a single
      `print_tree_header` call, the execution-trace channel -/
  | tree (block : String)
  /-- a line written to `yyError` (`outError.txt`), the diagnostics channel -/
  | err (line : String)
deriving DecidableEq, Repr

/-- The mutable state of one run: the global `int sym[256]`, the ordered
stream of writes to the three sinks, and `yylineno`. -/
structure RunState where
  sym : List Int
  events : List Event
  yylineno : Int
deriving DecidableEq, Repr

/-- Effects channel: the lines written to `yyout`, in order. -/
def RunState.outC (st : RunState) : List String :=
  st.events.filterMap (fun e => match e with | .out s => some s | _ => none)

/-- Execution-trace channel: the rendered blocks written to `yytree`, in order. -/
def RunState.treeC (st : RunState) : List String :=
  st.events.filterMap (fun e => match e with | .tree s => some s | _ => none)

/-- Diagnostics channel: the lines written to `yyError`, in order. -/
def RunState.errC (st : RunState) : List String :=
  st.events.filterMap (fun e => match e with | .err s => some s | _ => none)

/-- State at the start of a run: `int sym[256]` is a zero-initialized
global, the output files are freshly opened (empty).  `ln` is the value
`yylineno` has during execution (execution happens after the whole
program is parsed, so it is a single fixed line number). -/
def initState (ln : Int) : RunState :=
  { sym := List.replicate 256 0, events := [], yylineno := ln }

/-- `void yyerror(char *s)`: appends `"Error: <s> at line <yylineno>"`
to the diagnostics sink. -/
def yyerror (s : String) (st : RunState) : RunState :=
  { st with events :=
      st.events ++ [Event.err ("Error: " ++ s ++ " at line " ++ toString st.yylineno)] }

/-- Node kinds, the `enum` of the source. -/
inductive NKind where
  | N_UNKNOWN
  | N_INT
  | N_VAR
  | N_OP
  | N_DECL
  | N_ASSIGN
  | N_PRINT
  | N_IF
  | N_BRANCHES
  | N_STMTLIST
deriving DecidableEq, Repr

/-- `struct Node` with its five data fields; `Node.null` is the NULL
pointer (children are plain `Node`s since every child pointer may be NULL
and every dereference in the source is null-guarded). -/
inductive Node where
  | null
  | mk (label : String) (left right : Node) (kind : NKind) (int_value : Int) (var_id : Int)
deriving DecidableEq, Repr

def Node.label : Node → String
  | .null => ""
  | .mk l _ _ _ _ _ => l

def Node.left : Node → Node
  | .null => .null
  | .mk _ a _ _ _ _ => a

def Node.right : Node → Node
  | .null => .null
  | .mk _ _ b _ _ _ => b

/-- The kind tag.  (`Node.null` is never dereferenced by the source; we
give it the `N_UNKNOWN` default so the accessor is total.) -/
def Node.kind : Node → NKind
  | .null => .N_UNKNOWN
  | .mk _ _ _ k _ _ => k

def Node.int_value : Node → Int
  | .null => 0
  | .mk _ _ _ _ v _ => v

def Node.var_id : Node → Int
  | .null => -1
  | .mk _ _ _ _ _ i => i

/-- `new_node_kind`: fresh node with the given label, kind and children;
`int_value = 0`, `var_id = -1`. -/
def new_node_kind (label : String) (kind : NKind) (left right : Node) : Node :=
  .mk label left right kind 0 (-1)

/-- `new_int_node`: leaf labelled `INTEGER(<v>)` holding `v`. -/
def new_int_node (v : Int) : Node :=
  .mk ("INTEGER(" ++ toString v ++ ")") .null .null .N_INT v (-1)

/-- `new_var_node`: leaf labelled `VAR(id=<id>)` holding the variable id. -/
def new_var_node (id : Int) : Node :=
  .mk ("VAR(id=" ++ toString id ++ ")") .null .null .N_VAR 0 id

def new_op_node (op : String) (l r : Node) : Node :=
  new_node_kind op .N_OP l r

def new_decl_node (varNode exprNode : Node) : Node :=
  new_node_kind "dec" .N_DECL varNode exprNode

def new_assign_node (varNode exprNode : Node) : Node :=
  new_node_kind "assign" .N_ASSIGN varNode exprNode

def new_print_node (exprNode : Node) : Node :=
  new_node_kind "print" .N_PRINT exprNode .null

/-- `new_if_node`: always wraps the two branch lists in a `branches`
helper node, whether or not an else was written. -/
def new_if_node (cond thenList elseList : Node) : Node :=
  new_node_kind "if" .N_IF cond (new_node_kind "branches" .N_BRANCHES thenList elseList)

def new_stmtlist_node (prevList stmt : Node) : Node :=
  new_node_kind "stmtlist" .N_STMTLIST prevList stmt

/-- `printTreeVertical(root, space)`: right subtree above, then the label
indented by `space` columns (the C body adds 5 to `space` on entry and
indents by `space - 5`, which is the incoming value), then the left
subtree below; each level adds 5 columns. -/
def printTreeVertical : Node → Nat → String
  | .null, _ => ""
  | .mk label left right _ _ _, space =>
      printTreeVertical right (space + 5)
        ++ "\n" ++ String.mk (List.replicate space ' ') ++ label ++ "\n"
        ++ printTreeVertical left (space + 5)

/-- The block one `print_tree_header` call writes: the vertical rendering
of the subtree followed by the fixed separator line. -/
def renderBlock (n : Node) : String :=
  printTreeVertical n 0 ++ "\n--------------------------------------------------\n\n"

/-- `print_tree_header(n)`: nothing for NULL, otherwise one `tree` event
holding the rendered block. -/
def print_tree_header (n : Node) (st : RunState) : RunState :=
  match n with
  | .null => st
  | .mk _ _ _ _ _ _ =>
      { st with events := st.events ++ [Event.tree (renderBlock n)] }

/-- `sym[id] = val`.  The C code indexes the global array without a bounds
check; the scanner guarantees `0 ≤ id < 256` (out of that range the C
behaviour is undefined, and we leave the store unchanged). -/
def symWrite (s : List Int) (id v : Int) : List Int :=
  if 0 ≤ id ∧ id < 256 then s.set id.toNat v else s

/-- `int eval_expr(Node *n)`: value of an expression subtree, also
threading the state because the error paths write to the diagnostics
sink.  Division is C truncating division (`Int.tdiv`). -/
def eval_expr : Node → RunState → Int × RunState
  | .null, st => (0, st)
  | .mk label left right kind iv vid, st =>
      match kind with
      | .N_INT => (iv, st)
      | .N_VAR =>
          (if 0 ≤ vid ∧ vid < 256 then st.sym.getD vid.toNat 0 else 0, st)
      | .N_OP =>
          let resL := eval_expr left st
          let resR := eval_expr right resL.2
          let L := resL.1
          let R := resR.1
          let st2 := resR.2
          if label = "+" then (L + R, st2)
          else if label = "-" then (L - R, st2)
          else if label = "*" then (L * R, st2)
          else if label = "/" then
            if R = 0 then (0, yyerror "Division by zero" st2)
            else (L.tdiv R, st2)
          else if label = "==" then (if L = R then 1 else 0, st2)
          else if label = "!=" then (if L ≠ R then 1 else 0, st2)
          else if label = "<=" then (if L ≤ R then 1 else 0, st2)
          else if label = ">=" then (if L ≥ R then 1 else 0, st2)
          else if label = "<" then (if L < R then 1 else 0, st2)
          else if label = ">" then (if L > R then 1 else 0, st2)
          else (0, yyerror "Unknown operator in eval_expr" st2)
      | _ => (0, yyerror "eval_expr: expected expression node" st)

mutual
/-- `void execute_stmt(Node *stmt)`: NULL is a no-op; otherwise render the
statement's subtree first (`print_tree_header`), then dispatch on the kind. -/
def execute_stmt : Node → RunState → RunState
  | .null, st => st
  | .mk label left right kind iv vid, st =>
      let n := Node.mk label left right kind iv vid
      let st1 := print_tree_header n st
      match kind with
      | .N_DECL =>
          let r := eval_expr right st1
          if left.kind = .N_VAR then
            { r.2 with
              sym := symWrite r.2.sym left.var_id r.1,
              events := r.2.events ++
                [Event.out ("Declared var[" ++ toString left.var_id ++ "] = " ++ toString r.1)] }
          else yyerror "Declaration left side is not a variable" r.2
      | .N_ASSIGN =>
          let r := eval_expr right st1
          if left.kind = .N_VAR then
            { r.2 with
              sym := symWrite r.2.sym left.var_id r.1,
              events := r.2.events ++
                [Event.out ("Assigned var[" ++ toString left.var_id ++ "] = " ++ toString r.1)] }
          else yyerror "Assignment left side is not a variable" r.2
      | .N_PRINT =>
          let r := eval_expr left st1
          { r.2 with events := r.2.events ++ [Event.out ("Print: " ++ toString r.1)] }
      | .N_IF =>
          let r := eval_expr left st1
          match right with
          | .mk _ thenList elseList bk _ _ =>
              if bk = .N_BRANCHES then
                if r.1 ≠ 0 then execute_list thenList r.2
                else execute_list elseList r.2
              else yyerror "If branches malformed" r.2
          | .null => yyerror "If branches malformed" r.2
      | .N_STMTLIST => execute_list (Node.mk label left right .N_STMTLIST iv vid) st1
      | _ => yyerror "Unknown statement kind in execute_stmt" st1
termination_by n _ => sizeOf n * 2 + (if n.kind = NKind.N_STMTLIST then 1 else 0)
decreasing_by
  all_goals simp [Node.kind]
  all_goals repeat' split
  all_goals omega

/-- `void execute_list(Node *list)`: NULL is a no-op; a `stmtlist` node
executes its previous sublist first and then its statement; any other
node is executed as a single statement. -/
def execute_list : Node → RunState → RunState
  | .null, st => st
  | .mk label left right kind iv vid, st =>
      if kind = .N_STMTLIST then
        execute_stmt right (execute_list left st)
      else execute_stmt (Node.mk label left right kind iv vid) st
termination_by n _ => sizeOf n * 2 + (if n.kind = NKind.N_STMTLIST then 0 else 1)
decreasing_by
  all_goals simp [Node.kind]
  all_goals repeat' split
  all_goals first
  | omega
  | simp_all
end

/-- The diagnostics line `yyerror` produces for message `m` when
`yylineno = ln`. -/
def errLine (m : String) (ln : Int) : String :=
  "Error: " ++ m ++ " at line " ++ toString ln

/-- Pure value of `eval_expr`: evaluation reads only the store (it never
writes it), so the value is a function of the node and the store alone.
`eval_expr_decomp` proves agreement with `eval_expr`. -/
def evalV : Node → List Int → Int
  | .null, _ => 0
  | .mk label left right kind iv vid, s =>
      match kind with
      | .N_INT => iv
      | .N_VAR => if 0 ≤ vid ∧ vid < 256 then s.getD vid.toNat 0 else 0
      | .N_OP =>
          let L := evalV left s
          let R := evalV right s
          if label = "+" then L + R
          else if label = "-" then L - R
          else if label = "*" then L * R
          else if label = "/" then
            if R = 0 then 0 else L.tdiv R
          else if label = "==" then (if L = R then 1 else 0)
          else if label = "!=" then (if L ≠ R then 1 else 0)
          else if label = "<=" then (if L ≤ R then 1 else 0)
          else if label = ">=" then (if L ≥ R then 1 else 0)
          else if label = "<" then (if L < R then 1 else 0)
          else if label = ">" then (if L > R then 1 else 0)
          else 0
      | _ => 0

/-- Diagnostics lines `eval_expr` appends, in order (left operand's before
the right operand's before the operator's own). -/
def evalE : Node → List Int → Int → List String
  | .null, _, _ => []
  | .mk label left right kind _ _, s, ln =>
      match kind with
      | .N_INT => []
      | .N_VAR => []
      | .N_OP =>
          let es := evalE left s ln ++ evalE right s ln
          let R := evalV right s
          if label = "+" then es
          else if label = "-" then es
          else if label = "*" then es
          else if label = "/" then
            if R = 0 then es ++ [errLine "Division by zero" ln] else es
          else if label = "==" then es
          else if label = "!=" then es
          else if label = "<=" then es
          else if label = ">=" then es
          else if label = "<" then es
          else if label = ">" then es
          else es ++ [errLine "Unknown operator in eval_expr" ln]
      | _ => [errLine "eval_expr: expected expression node" ln]

mutual
/-- Pure decomposition of `execute_stmt`: from the statement, the store
and `yylineno` it returns the final store, the events the statement
appends (in order), and the roots of the blocks rendered to the trace
sink — one root per executed statement, in rendering order, each
contributed exactly once at the head of its own dispatch.
`exec_decomp` proves agreement with `execute_stmt`. -/
def execD_stmt : Node → List Int → Int → List Int × List Event × List Node
  | .null, s, _ => (s, [], [])
  | .mk label left right kind iv vid, s, ln =>
      let n := Node.mk label left right kind iv vid
      let inner : List Int × List Event × List Node :=
        match kind with
        | .N_DECL =>
            let v := evalV right s
            let es := (evalE right s ln).map Event.err
            if left.kind = .N_VAR then
              (symWrite s left.var_id v,
               es ++ [Event.out ("Declared var[" ++ toString left.var_id ++ "] = " ++ toString v)],
               [])
            else
              (s, es ++ [Event.err (errLine "Declaration left side is not a variable" ln)], [])
        | .N_ASSIGN =>
            let v := evalV right s
            let es := (evalE right s ln).map Event.err
            if left.kind = .N_VAR then
              (symWrite s left.var_id v,
               es ++ [Event.out ("Assigned var[" ++ toString left.var_id ++ "] = " ++ toString v)],
               [])
            else
              (s, es ++ [Event.err (errLine "Assignment left side is not a variable" ln)], [])
        | .N_PRINT =>
            let v := evalV left s
            ((s : List Int), (evalE left s ln).map Event.err ++ [Event.out ("Print: " ++ toString v)], [])
        | .N_IF =>
            let v := evalV left s
            let es := (evalE left s ln).map Event.err
            match right with
            | .mk _ thenList elseList bk _ _ =>
                if bk = .N_BRANCHES then
                  if v ≠ 0 then
                    let rT := execD_list thenList s ln
                    (rT.1, es ++ rT.2.1, rT.2.2)
                  else
                    let rE := execD_list elseList s ln
                    (rE.1, es ++ rE.2.1, rE.2.2)
                else (s, es ++ [Event.err (errLine "If branches malformed" ln)], [])
            | .null => (s, es ++ [Event.err (errLine "If branches malformed" ln)], [])
        | .N_STMTLIST => execD_list (Node.mk label left right .N_STMTLIST iv vid) s ln
        | _ => (s, [Event.err (errLine "Unknown statement kind in execute_stmt" ln)], [])
      (inner.1, Event.tree (renderBlock n) :: inner.2.1, n :: inner.2.2)
termination_by n _ _ => sizeOf n * 2 + (if n.kind = NKind.N_STMTLIST then 1 else 0)
decreasing_by
  all_goals simp [Node.kind]
  all_goals repeat' split
  all_goals omega

/-- Pure decomposition of `execute_list`; see `execD_stmt`. -/
def execD_list : Node → List Int → Int → List Int × List Event × List Node
  | .null, s, _ => (s, [], [])
  | .mk label left right kind iv vid, s, ln =>
      if kind = .N_STMTLIST then
        let rP := execD_list left s ln
        let rS := execD_stmt right rP.1 ln
        (rS.1, rP.2.1 ++ rS.2.1, rP.2.2 ++ rS.2.2)
      else execD_stmt (Node.mk label left right kind iv vid) s ln
termination_by n _ _ => sizeOf n * 2 + (if n.kind = NKind.N_STMTLIST then 0 else 1)
decreasing_by
  all_goals simp [Node.kind]
  all_goals repeat' split
  all_goals first
  | omega
  | simp_all
end

/-- The statements of a statement-list chain in source order: the chain
is left-leaning (`left` = previous sublist, `right` = newest statement),
so flattening recurses left first. -/
def flatten_list : Node → List Node
  | .null => []
  | .mk label left right kind iv vid =>
      if kind = .N_STMTLIST then flatten_list left ++ [right]
      else [Node.mk label left right kind iv vid]

/-- `int a = 3; a = a + 4; print(a);` as the grammar builds it
(variable id 0). -/
def prog_decl_assign_print : Node :=
  new_stmtlist_node
    (new_stmtlist_node
      (new_stmtlist_node Node.null
        (new_decl_node (new_var_node 0) (new_int_node 3)))
      (new_assign_node (new_var_node 0)
        (new_op_node "+" (new_var_node 0) (new_int_node 4))))
    (new_print_node (new_var_node 0))

/-- `print(5 / 0); print(9);` as the grammar builds it. -/
def prog_div_then_print : Node :=
  new_stmtlist_node
    (new_stmtlist_node Node.null
      (new_print_node (new_op_node "/" (new_int_node 5) (new_int_node 0))))
    (new_print_node (new_int_node 9))

/-- Decomposition of the evaluator: the value is `evalV` of the store,
the store, `yylineno` and the already-written events are untouched, and
the only writes are the diagnostics lines `evalE`, appended in order. -/
theorem eval_expr_decomp (n : Node) : ∀ st : RunState,
    eval_expr n st =
      (evalV n st.sym,
       { st with events := st.events ++ (evalE n st.sym st.yylineno).map Event.err }) := by
  induction n with
  | null => intro st; simp [eval_expr, evalV, evalE]
  | mk label left right kind iv vid ihl ihr =>
      intro st
      cases kind with
      | N_OP =>
          have hL := ihl st
          simp only [eval_expr]
          rw [hL]
          dsimp only
          rw [ihr { sym := st.sym, events := st.events ++ List.map Event.err (evalE left st.sym st.yylineno), yylineno := st.yylineno }]
          dsimp only
          simp only [evalV, evalE]
          clear ihl ihr hL
          by_cases h1 : label = "+"
          · subst h1; simp [yyerror, errLine]
          by_cases h2 : label = "-"
          · subst h2; simp [h1, yyerror, errLine]
          by_cases h3 : label = "*"
          · subst h3; simp [h1, h2, yyerror, errLine]
          by_cases h4 : label = "/"
          · subst h4
            by_cases hz : evalV right st.sym = 0 <;>
              simp [h1, h2, h3, hz, yyerror, errLine]
          by_cases h5 : label = "=="
          · subst h5; simp [h1, h2, h3, h4, yyerror, errLine]
          by_cases h6 : label = "!="
          · subst h6; simp [h1, h2, h3, h4, h5, yyerror, errLine]
          by_cases h7 : label = "<="
          · subst h7; simp [h1, h2, h3, h4, h5, h6, yyerror, errLine]
          by_cases h8 : label = ">="
          · subst h8; simp [h1, h2, h3, h4, h5, h6, h7, yyerror, errLine]
          by_cases h9 : label = "<"
          · subst h9; simp [h1, h2, h3, h4, h5, h6, h7, h8, yyerror, errLine]
          by_cases h10 : label = ">"
          · subst h10; simp [h1, h2, h3, h4, h5, h6, h7, h8, h9, yyerror, errLine]
          simp [h1, h2, h3, h4, h5, h6, h7, h8, h9, h10, yyerror, errLine]
      | N_INT => simp [eval_expr, evalV, evalE]
      | N_VAR => simp [eval_expr, evalV, evalE]
      | N_UNKNOWN => simp [eval_expr, evalV, evalE, yyerror, errLine]
      | N_DECL => simp [eval_expr, evalV, evalE, yyerror, errLine]
      | N_ASSIGN => simp [eval_expr, evalV, evalE, yyerror, errLine]
      | N_PRINT => simp [eval_expr, evalV, evalE, yyerror, errLine]
      | N_IF => simp [eval_expr, evalV, evalE, yyerror, errLine]
      | N_BRANCHES => simp [eval_expr, evalV, evalE, yyerror, errLine]
      | N_STMTLIST => simp [eval_expr, evalV, evalE, yyerror, errLine]


theorem exec_decomp (n0 : Node) :
    (∀ st : RunState,
       execute_stmt n0 st =
         { sym := (execD_stmt n0 st.sym st.yylineno).1,
           events := st.events ++ (execD_stmt n0 st.sym st.yylineno).2.1,
           yylineno := st.yylineno }) ∧
    (∀ st : RunState,
       execute_list n0 st =
         { sym := (execD_list n0 st.sym st.yylineno).1,
           events := st.events ++ (execD_list n0 st.sym st.yylineno).2.1,
           yylineno := st.yylineno }) := by
  suffices h : ∀ k (n : Node), sizeOf n ≤ k →
      (∀ st : RunState,
         execute_stmt n st =
           { sym := (execD_stmt n st.sym st.yylineno).1,
             events := st.events ++ (execD_stmt n st.sym st.yylineno).2.1,
             yylineno := st.yylineno }) ∧
      (∀ st : RunState,
         execute_list n st =
           { sym := (execD_list n st.sym st.yylineno).1,
             events := st.events ++ (execD_list n st.sym st.yylineno).2.1,
             yylineno := st.yylineno }) by
    exact h (sizeOf n0) n0 le_rfl
  intro k
  induction k with
  | zero =>
      intro n hn
      exfalso
      cases n <;> simp at hn
  | succ k ih =>
      intro n hn
      cases n with
      | null =>
          constructor <;> intro st <;>
            simp [execute_stmt, execute_list, execD_stmt, execD_list]
      | mk label left right kind iv vid =>
          simp only [Node.mk.sizeOf_spec] at hn
          have hL : sizeOf left ≤ k := by omega
          have hR : sizeOf right ≤ k := by omega
          by_cases hk : kind = NKind.N_STMTLIST
          · subst hk
            have hlist : ∀ st : RunState,
                execute_list (Node.mk label left right NKind.N_STMTLIST iv vid) st =
                  { sym := (execD_list (Node.mk label left right NKind.N_STMTLIST iv vid) st.sym st.yylineno).1,
                    events := st.events ++ (execD_list (Node.mk label left right NKind.N_STMTLIST iv vid) st.sym st.yylineno).2.1,
                    yylineno := st.yylineno } := by
              intro st
              have hPrev := (ih left hL).2 st
              have hStmt := (ih right hR).1 (execute_list left st)
              simp only [execute_list, execD_list]
              rw [hPrev] at hStmt
              dsimp only at hStmt
              simp only [if_true]
              rw [hPrev, hStmt]
              simp [List.append_assoc]
            refine ⟨?_, hlist⟩
            intro st
            have hbody := hlist (print_tree_header (Node.mk label left right NKind.N_STMTLIST iv vid) st)
            simp only [execute_stmt, execD_stmt]
            rw [hbody]
            simp [print_tree_header, List.append_assoc]
          · -- kind is not N_STMTLIST
            have hstmt : ∀ st : RunState,
                execute_stmt (Node.mk label left right kind iv vid) st =
                  { sym := (execD_stmt (Node.mk label left right kind iv vid) st.sym st.yylineno).1,
                    events := st.events ++ (execD_stmt (Node.mk label left right kind iv vid) st.sym st.yylineno).2.1,
                    yylineno := st.yylineno } := by
              intro st
              cases kind with
              | N_STMTLIST => exact absurd rfl hk
              | N_DECL =>
                  simp only [execute_stmt, execD_stmt, print_tree_header, eval_expr_decomp]
                  by_cases hv : left.kind = NKind.N_VAR <;>
                    simp [hv, yyerror, errLine, List.append_assoc]
              | N_ASSIGN =>
                  simp only [execute_stmt, execD_stmt, print_tree_header, eval_expr_decomp]
                  by_cases hv : left.kind = NKind.N_VAR <;>
                    simp [hv, yyerror, errLine, List.append_assoc]
              | N_PRINT =>
                  simp only [execute_stmt, execD_stmt, print_tree_header, eval_expr_decomp]
                  simp [yyerror, errLine, List.append_assoc]
              | N_IF =>
                  cases right with
                  | null =>
                      simp only [execute_stmt, execD_stmt, print_tree_header, eval_expr_decomp]
                      simp [yyerror, errLine, List.append_assoc]
                  | mk rl thenList elseList bk riv rvid =>
                      have hT : sizeOf thenList ≤ k := by simp at hR; omega
                      have hE : sizeOf elseList ≤ k := by simp at hR; omega
                      have hThen := (ih thenList hT).2
                      have hElse := (ih elseList hE).2
                      simp only [execute_stmt, execD_stmt, print_tree_header, eval_expr_decomp]
                      by_cases hb : bk = NKind.N_BRANCHES
                      · by_cases hc : evalV left st.sym = 0
                        · simp [hb, hc, hThen, hElse, yyerror, errLine, List.append_assoc]
                        · simp [hb, hc, hThen, hElse, yyerror, errLine, List.append_assoc]
                      · simp [hb, yyerror, errLine, List.append_assoc]
              | N_UNKNOWN =>
                  simp only [execute_stmt, execD_stmt, print_tree_header]
                  simp [yyerror, errLine, List.append_assoc]
              | N_INT =>
                  simp only [execute_stmt, execD_stmt, print_tree_header]
                  simp [yyerror, errLine, List.append_assoc]
              | N_VAR =>
                  simp only [execute_stmt, execD_stmt, print_tree_header]
                  simp [yyerror, errLine, List.append_assoc]
              | N_OP =>
                  simp only [execute_stmt, execD_stmt, print_tree_header]
                  simp [yyerror, errLine, List.append_assoc]
              | N_BRANCHES =>
                  simp only [execute_stmt, execD_stmt, print_tree_header]
                  simp [yyerror, errLine, List.append_assoc]
            refine ⟨hstmt, ?_⟩
            intro st
            simp only [execute_list, execD_list, if_neg hk]
            exact hstmt st

/-- The trace projection of an `Event.err`-mapped list is empty. -/
theorem tree_filterMap_err (l : List String) :
    (l.map Event.err).filterMap
      (fun e => match e with | Event.tree b => some b | _ => none) = [] := by
  induction l with
  | nil => simp
  | cons a l ih => simp [ih]

/-- In the events a statement appends, the blocks written to the trace
sink are exactly the renderings of the trace roots, one block per root,
in order (and likewise for a statement list). -/
theorem execD_tree_blocks (n0 : Node) (s0 : List Int) (ln : Int) :
    ((execD_stmt n0 s0 ln).2.1.filterMap
        (fun e => match e with | Event.tree b => some b | _ => none) =
      (execD_stmt n0 s0 ln).2.2.map renderBlock) ∧
    ((execD_list n0 s0 ln).2.1.filterMap
        (fun e => match e with | Event.tree b => some b | _ => none) =
      (execD_list n0 s0 ln).2.2.map renderBlock) := by
  suffices h : ∀ k (n : Node), sizeOf n ≤ k → ∀ s : List Int,
      ((execD_stmt n s ln).2.1.filterMap
          (fun e => match e with | Event.tree b => some b | _ => none) =
        (execD_stmt n s ln).2.2.map renderBlock) ∧
      ((execD_list n s ln).2.1.filterMap
          (fun e => match e with | Event.tree b => some b | _ => none) =
        (execD_list n s ln).2.2.map renderBlock) by
    exact h (sizeOf n0) n0 le_rfl s0
  intro k
  induction k with
  | zero =>
      intro n hn
      exfalso
      cases n <;> simp at hn
  | succ k ih =>
      intro n hn
      cases n with
      | null =>
          intro s
          constructor <;> simp [execD_stmt, execD_list]
      | mk label left right kind iv vid =>
          intro s
          simp only [Node.mk.sizeOf_spec] at hn
          have hL : sizeOf left ≤ k := by omega
          have hR : sizeOf right ≤ k := by omega
          by_cases hk : kind = NKind.N_STMTLIST
          · subst hk
            have hlist : ∀ s : List Int,
                (execD_list (Node.mk label left right NKind.N_STMTLIST iv vid) s ln).2.1.filterMap
                    (fun e => match e with | Event.tree b => some b | _ => none) =
                  (execD_list (Node.mk label left right NKind.N_STMTLIST iv vid) s ln).2.2.map renderBlock := by
              intro s
              have hPrev := (ih left hL s).2
              have hStmt := (ih right hR (execD_list left s ln).1).1
              simp [execD_list, hPrev, hStmt]
            refine ⟨?_, hlist s⟩
            have hbody := hlist s
            simp only [execD_stmt]
            simp [hbody]
          · have hstmt : ∀ s : List Int,
                (execD_stmt (Node.mk label left right kind iv vid) s ln).2.1.filterMap
                    (fun e => match e with | Event.tree b => some b | _ => none) =
                  (execD_stmt (Node.mk label left right kind iv vid) s ln).2.2.map renderBlock := by
              intro s
              cases kind with
              | N_STMTLIST => exact absurd rfl hk
              | N_DECL =>
                  simp only [execD_stmt]
                  by_cases hv : left.kind = NKind.N_VAR <;>
                    simp [hv, tree_filterMap_err]
              | N_ASSIGN =>
                  simp only [execD_stmt]
                  by_cases hv : left.kind = NKind.N_VAR <;>
                    simp [hv, tree_filterMap_err]
              | N_PRINT =>
                  simp only [execD_stmt]
                  simp [tree_filterMap_err]
              | N_IF =>
                  cases right with
                  | null => simp [execD_stmt, tree_filterMap_err]
                  | mk rl thenList elseList bk riv rvid =>
                      have hT : sizeOf thenList ≤ k := by simp at hR; omega
                      have hE : sizeOf elseList ≤ k := by simp at hR; omega
                      have hThen := (ih thenList hT s).2
                      have hElse := (ih elseList hE s).2
                      simp only [execD_stmt]
                      by_cases hb : bk = NKind.N_BRANCHES
                      · by_cases hc : evalV left s = 0
                        · simp [hb, hc, hThen, hElse, tree_filterMap_err]
                        · simp [hb, hc, hThen, hElse, tree_filterMap_err]
                      · simp [hb, tree_filterMap_err]
              | N_UNKNOWN => simp [execD_stmt]
              | N_INT => simp [execD_stmt]
              | N_VAR => simp [execD_stmt]
              | N_OP => simp [execD_stmt]
              | N_BRANCHES => simp [execD_stmt]
            refine ⟨hstmt s, ?_⟩
            simp only [execD_list, if_neg hk]
            exact hstmt s


/-- `execute_list` is the left fold of `execute_stmt` over the flattened
chain: statements run in source order. -/
theorem execute_list_foldl (n : Node) : ∀ st : RunState,
    execute_list n st = (flatten_list n).foldl (fun s t => execute_stmt t s) st := by
  induction n with
  | null => intro st; simp [execute_list, flatten_list]
  | mk label left right kind iv vid ihl _ =>
      intro st
      by_cases hk : kind = NKind.N_STMTLIST
      · subst hk
        simp [execute_list, flatten_list, ihl, List.foldl_append]
      · simp [execute_list, flatten_list, hk]

/-- The effects projection of an `Event.err`-mapped list is empty. -/
theorem out_filterMap_err (l : List String) :
    (l.map Event.err).filterMap
      (fun e => match e with | Event.out s => some s | _ => none) = [] := by
  induction l with
  | nil => simp
  | cons a l ih => simp [ih]


/-- C10: `eval_expr`, `execute_stmt` and `execute_list` are total over an
absent (NULL) node: evaluating NULL yields 0 and executing NULL is a
no-op, with the state — so all three channels — entirely unchanged and
nothing reported or rendered. -/
theorem C10_total_on_absent_node :
    ∀ st : RunState,
      eval_expr Node.null st = (0, st) ∧
      execute_stmt Node.null st = st ∧
      execute_list Node.null st = st := by
  intro st
  refine ⟨?_, ?_, ?_⟩ <;> simp [eval_expr, execute_stmt, execute_list]

/-- C1: `execute_list` runs statements in strict left-to-right source
order: NULL is a no-op, a `stmtlist` node runs its previous sublist
first and then its statement, a bare non-list statement runs directly,
and in general `execute_list` is the left-to-right fold of
`execute_stmt` over the flattened chain. -/
theorem C1_execute_list_order :
    (∀ st : RunState, execute_list Node.null st = st) ∧
    (∀ (prev stm : Node) (st : RunState),
        execute_list (new_stmtlist_node prev stm) st =
          execute_stmt stm (execute_list prev st)) ∧
    (∀ (bare : Node) (st : RunState), bare.kind ≠ NKind.N_STMTLIST →
        execute_list bare st = execute_stmt bare st) ∧
    (∀ (n : Node) (st : RunState),
        execute_list n st = (flatten_list n).foldl (fun s t => execute_stmt t s) st) := by
  refine ⟨?_, ?_, ?_, ?_⟩
  · intro st; simp [execute_list]
  · intro prev stm st
    simp [execute_list, new_stmtlist_node, new_node_kind]
  · intro bare st hb
    cases bare with
    | null => simp [execute_list, execute_stmt]
    | mk label left right kind iv vid =>
        simp only [Node.kind] at hb
        simp [execute_list, hb]
  · intro n st
    exact execute_list_foldl n st

/-- C1 witness: a bare `print` statement (not a `stmtlist`) is executed
directly by `execute_list`. -/
theorem C1_witness :
    (new_print_node (new_int_node 5)).kind ≠ NKind.N_STMTLIST ∧
    execute_list (new_print_node (new_int_node 5)) (initState 1) =
      execute_stmt (new_print_node (new_int_node 5)) (initState 1) :=
  ⟨by decide, C1_execute_list_order.2.2.1 (new_print_node (new_int_node 5)) (initState 1) (by decide)⟩

/-- C6: a `VAR` node evaluates to the Symbol Store entry at its id when
the id is in `[0,256)` and to 0 otherwise (with no condition reported
and no other state change); the store of a fresh run is the
zero-initialized 256-slot table, so reading any id — never written or
out of range — at run start yields 0. -/
theorem C6_variable_read :
    (∀ (id : Int) (st : RunState),
        eval_expr (new_var_node id) st =
          ((if 0 ≤ id ∧ id < 256 then st.sym.getD id.toNat 0 else 0), st)) ∧
    (∀ ln : Int,
        (initState ln).sym = List.replicate 256 0 ∧ (initState ln).sym.length = 256) ∧
    (∀ (id ln : Int), (eval_expr (new_var_node id) (initState ln)).1 = 0) := by
  refine ⟨?_, ?_, ?_⟩
  · intro id st
    simp only [new_var_node]
    simp only [eval_expr]
  · intro ln
    refine ⟨rfl, ?_⟩
    rw [show (initState ln).sym = List.replicate 256 0 from rfl, List.length_replicate]
  · intro id ln
    simp only [new_var_node]
    simp only [eval_expr]
    split
    · rw [show (initState ln).sym = List.replicate 256 0 from rfl, List.getD_eq_getElem?_getD]
      exact List.getElem?_getD_replicate_default_eq 0 256 id.toNat
    · rfl

/-- C8 counterexample: for the no-else `if` built by the grammar
(`new_if_node(cond, thenList, NULL)`), the else branch stored inside the
branch holder is the NULL node itself — the claim's "not null" is false. -/
theorem C8_else_branch_is_null :
    (new_if_node (new_int_node 1)
        (new_stmtlist_node Node.null (new_print_node (new_int_node 1)))
        Node.null).right.right = Node.null := by
  decide

/-- C8 (amended): every `IfStmt` is built with the same uniform shape —
condition child plus a `branches` holder pairing the then and else
lists — whether or not an else was written; in the no-else case the
else slot of the holder holds the NULL/absent node, which `execute_list`
treats as the empty statement list (a no-op). -/
theorem C8_if_shape_uniform :
    (∀ cond thenL elseL : Node,
        new_if_node cond thenL elseL =
          Node.mk "if" cond
            (Node.mk "branches" thenL elseL NKind.N_BRANCHES 0 (-1))
            NKind.N_IF 0 (-1)) ∧
    (∀ cond thenL : Node,
        (new_if_node cond thenL Node.null).right.kind = NKind.N_BRANCHES ∧
        (new_if_node cond thenL Node.null).right.left = thenL ∧
        (new_if_node cond thenL Node.null).right.right = Node.null) ∧
    (∀ st : RunState, execute_list Node.null st = st) := by
  refine ⟨?_, ?_, ?_⟩
  · intro cond thenL elseL
    simp [new_if_node, new_node_kind]
  · intro cond thenL
    simp [new_if_node, new_node_kind, Node.kind, Node.left, Node.right]
  · intro st; simp [execute_list]

set_option maxRecDepth 8000 in
/-- C5: an executed `Declaration`/`Assignment` renders, evaluates its
expression, stores the value at the target id and emits exactly one
`Declared var[<id>] = <value>` / `Assigned var[<id>] = <value>` effects
record; an executed `PrintStmt` evaluates and emits exactly one
`Print: <value>` record; and the program
`int a = 3; a = a + 4; print(a);` emits exactly those three records in
order. -/
theorem C5_effect_records :
    (∀ (id : Int) (en : Node) (st : RunState),
        execute_stmt (new_decl_node (new_var_node id) en) st =
          { (eval_expr en (print_tree_header (new_decl_node (new_var_node id) en) st)).2 with
            sym := symWrite
              (eval_expr en (print_tree_header (new_decl_node (new_var_node id) en) st)).2.sym
              id
              (eval_expr en (print_tree_header (new_decl_node (new_var_node id) en) st)).1,
            events :=
              (eval_expr en (print_tree_header (new_decl_node (new_var_node id) en) st)).2.events ++
                [Event.out ("Declared var[" ++ toString id ++ "] = " ++
                  toString (eval_expr en (print_tree_header (new_decl_node (new_var_node id) en) st)).1)] }) ∧
    (∀ (id : Int) (en : Node) (st : RunState),
        execute_stmt (new_assign_node (new_var_node id) en) st =
          { (eval_expr en (print_tree_header (new_assign_node (new_var_node id) en) st)).2 with
            sym := symWrite
              (eval_expr en (print_tree_header (new_assign_node (new_var_node id) en) st)).2.sym
              id
              (eval_expr en (print_tree_header (new_assign_node (new_var_node id) en) st)).1,
            events :=
              (eval_expr en (print_tree_header (new_assign_node (new_var_node id) en) st)).2.events ++
                [Event.out ("Assigned var[" ++ toString id ++ "] = " ++
                  toString (eval_expr en (print_tree_header (new_assign_node (new_var_node id) en) st)).1)] }) ∧
    (∀ (en : Node) (st : RunState),
        execute_stmt (new_print_node en) st =
          { (eval_expr en (print_tree_header (new_print_node en) st)).2 with
            events :=
              (eval_expr en (print_tree_header (new_print_node en) st)).2.events ++
                [Event.out ("Print: " ++
                  toString (eval_expr en (print_tree_header (new_print_node en) st)).1)] }) ∧
    (execute_list prog_decl_assign_print (initState 1)).outC =
      ["Declared var[0] = 3", "Assigned var[0] = 7", "Print: 7"] := by
  refine ⟨?_, ?_, ?_, ?_⟩
  · intro id en st
    simp only [new_decl_node, new_node_kind, new_var_node]
    simp only [execute_stmt, Node.kind, Node.var_id]
    simp
  · intro id en st
    simp only [new_assign_node, new_node_kind, new_var_node]
    simp only [execute_stmt, Node.kind, Node.var_id]
    simp
  · intro en st
    simp only [new_print_node, new_node_kind]
    simp only [execute_stmt]
  · simp only [prog_decl_assign_print]
    simp [execute_list, execute_stmt, eval_expr, print_tree_header, yyerror, RunState.outC,
      initState, new_stmtlist_node, new_decl_node, new_assign_node, new_print_node,
      new_op_node, new_var_node, new_int_node, new_node_kind, symWrite, Node.kind, Node.var_id]
    decide

set_option maxRecDepth 8000 in
/-- C3: a division whose right operand evaluates to 0 reports
`Division by zero` through `yyerror` (which formats diagnostics as
`Error: <message> at line <n>`), the division subtree evaluates to 0,
and execution continues: `print(5 / 0); print(9);` still prints 9 after
reporting the error. -/
theorem C3_division_by_zero :
    (∀ (l r : Node) (st : RunState),
        (eval_expr r (eval_expr l st).2).1 = 0 →
        eval_expr (new_op_node "/" l r) st =
          (0, yyerror "Division by zero" (eval_expr r (eval_expr l st).2).2)) ∧
    (∀ (m : String) (st : RunState),
        yyerror m st =
          { st with events :=
              st.events ++ [Event.err ("Error: " ++ m ++ " at line " ++ toString st.yylineno)] }) ∧
    (execute_list prog_div_then_print (initState 2)).outC = ["Print: 0", "Print: 9"] ∧
    (execute_list prog_div_then_print (initState 2)).errC = ["Error: Division by zero at line 2"] := by
  refine ⟨?_, ?_, ?_, ?_⟩
  · intro l r st h
    simp only [new_op_node, new_node_kind]
    simp only [eval_expr]
    simp [h]
  · intro m st
    rfl
  · simp only [prog_div_then_print]
    simp [execute_list, execute_stmt, eval_expr, print_tree_header, yyerror, RunState.outC,
      initState, new_stmtlist_node, new_print_node, new_op_node, new_int_node, new_node_kind]
    decide
  · simp only [prog_div_then_print]
    simp [execute_list, execute_stmt, eval_expr, print_tree_header, yyerror, RunState.errC,
      initState, new_stmtlist_node, new_print_node, new_op_node, new_int_node, new_node_kind]
    decide

/-- C3 witness: `5 / 0` evaluated in a fresh run at line 2 yields 0 and
appends the formatted division-by-zero diagnostics line. -/
theorem C3_witness :
    (eval_expr (new_int_node 0) (eval_expr (new_int_node 5) (initState 2)).2).1 = 0 ∧
    eval_expr (new_op_node "/" (new_int_node 5) (new_int_node 0)) (initState 2) =
      (0, yyerror "Division by zero"
        (eval_expr (new_int_node 0) (eval_expr (new_int_node 5) (initState 2)).2).2) :=
  ⟨by simp [eval_expr, new_int_node],
   C3_division_by_zero.1 (new_int_node 5) (new_int_node 0) (initState 2)
     (by simp [eval_expr, new_int_node])⟩

/-- The diagnostics projection of an `Event.err`-mapped list is the list
itself. -/
theorem err_filterMap_err (l : List String) :
    (l.map Event.err).filterMap
      (fun e => match e with | Event.err s => some s | _ => none) = l := by
  induction l with
  | nil => simp
  | cons a l ih => simp [ih]

/-- Rendering a statement's tree only appends to the trace sink: the
store, the line number, the effects channel and the diagnostics channel
are unchanged. -/
theorem print_tree_header_frame (n : Node) (st : RunState) :
    (print_tree_header n st).sym = st.sym ∧
    (print_tree_header n st).yylineno = st.yylineno ∧
    (print_tree_header n st).outC = st.outC ∧
    (print_tree_header n st).errC = st.errC := by
  cases n <;> simp [print_tree_header, RunState.outC, RunState.errC]

/-- Evaluation touches neither the store, the line number, the effects
channel nor the trace channel, and its value is `evalV` of the store. -/
theorem eval_expr_frame (n : Node) (st : RunState) :
    (eval_expr n st).1 = evalV n st.sym ∧
    (eval_expr n st).2.sym = st.sym ∧
    (eval_expr n st).2.yylineno = st.yylineno ∧
    (eval_expr n st).2.outC = st.outC ∧
    (eval_expr n st).2.treeC = st.treeC ∧
    (eval_expr n st).2.errC = st.errC ++ evalE n st.sym st.yylineno := by
  rw [eval_expr_decomp]
  simp [RunState.outC, RunState.treeC, RunState.errC,
    out_filterMap_err, tree_filterMap_err, err_filterMap_err]
  have hc : ∀ l : List String,
      l.filterMap
        ((fun e => match e with | Event.err s => some s | _ => none) ∘ Event.err) = l := by
    intro l
    induction l with
    | nil => simp
    | cons a l ih => simpa using ih
  exact hc _

/-- C2: executing an `IfStmt` renders it, evaluates the condition once,
and executes exactly one branch list — the then-list iff the value is
nonzero, the else-list otherwise; with no else (NULL else-list) and a
false condition nothing further happens, so the Symbol Store and the
effects channel are untouched; and the untaken branch — either way — is
never evaluated: it has no effect on the Symbol Store or the effects
channel. -/
theorem C2_if_single_branch :
    (∀ (cond thenL elseL : Node) (st : RunState),
        execute_stmt (new_if_node cond thenL elseL) st =
          (if (eval_expr cond (print_tree_header (new_if_node cond thenL elseL) st)).1 ≠ 0 then
            execute_list thenL
              (eval_expr cond (print_tree_header (new_if_node cond thenL elseL) st)).2
          else
            execute_list elseL
              (eval_expr cond (print_tree_header (new_if_node cond thenL elseL) st)).2)) ∧
    (∀ (cond thenL : Node) (st : RunState),
        (eval_expr cond st).1 = 0 →
        execute_stmt (new_if_node cond thenL Node.null) st =
          (eval_expr cond (print_tree_header (new_if_node cond thenL Node.null) st)).2 ∧
        (execute_stmt (new_if_node cond thenL Node.null) st).sym = st.sym ∧
        (execute_stmt (new_if_node cond thenL Node.null) st).outC = st.outC) ∧
    (∀ (cond thenL elseL elseL' : Node) (st : RunState),
        (eval_expr cond st).1 ≠ 0 →
        (execute_stmt (new_if_node cond thenL elseL) st).sym =
          (execute_stmt (new_if_node cond thenL elseL') st).sym ∧
        (execute_stmt (new_if_node cond thenL elseL) st).outC =
          (execute_stmt (new_if_node cond thenL elseL') st).outC) ∧
    (∀ (cond thenL thenL' elseL : Node) (st : RunState),
        (eval_expr cond st).1 = 0 →
        (execute_stmt (new_if_node cond thenL elseL) st).sym =
          (execute_stmt (new_if_node cond thenL' elseL) st).sym ∧
        (execute_stmt (new_if_node cond thenL elseL) st).outC =
          (execute_stmt (new_if_node cond thenL' elseL) st).outC) := by
  have hdispatch : ∀ (cond thenL elseL : Node) (st : RunState),
      execute_stmt (new_if_node cond thenL elseL) st =
        (if (eval_expr cond (print_tree_header (new_if_node cond thenL elseL) st)).1 ≠ 0 then
          execute_list thenL
            (eval_expr cond (print_tree_header (new_if_node cond thenL elseL) st)).2
        else
          execute_list elseL
            (eval_expr cond (print_tree_header (new_if_node cond thenL elseL) st)).2) := by
    intro cond thenL elseL st
    simp only [new_if_node, new_node_kind]
    simp only [execute_stmt]
    simp
  have hcondval : ∀ (cond thenL elseL : Node) (st : RunState),
      (eval_expr cond (print_tree_header (new_if_node cond thenL elseL) st)).1 =
        (eval_expr cond st).1 := by
    intro cond thenL elseL st
    rw [(eval_expr_frame cond (print_tree_header (new_if_node cond thenL elseL) st)).1,
        (print_tree_header_frame (new_if_node cond thenL elseL) st).1,
        (eval_expr_frame cond st).1]
  have hsymout : ∀ (br cond m : Node) (st : RunState),
      (execute_list br (eval_expr cond (print_tree_header m st)).2).sym =
        (execD_list br st.sym st.yylineno).1 ∧
      (execute_list br (eval_expr cond (print_tree_header m st)).2).outC =
        st.outC ++ (execD_list br st.sym st.yylineno).2.1.filterMap
          (fun e => match e with | Event.out s => some s | _ => none) := by
    intro br cond m st
    have hsyms : (eval_expr cond (print_tree_header m st)).2.sym = st.sym := by
      rw [(eval_expr_frame cond _).2.1, (print_tree_header_frame m st).1]
    have hlns : (eval_expr cond (print_tree_header m st)).2.yylineno = st.yylineno := by
      rw [(eval_expr_frame cond _).2.2.1, (print_tree_header_frame m st).2.1]
    have houts : (eval_expr cond (print_tree_header m st)).2.outC = st.outC := by
      rw [(eval_expr_frame cond _).2.2.2.1, (print_tree_header_frame m st).2.2.1]
    rw [(exec_decomp br).2 (eval_expr cond (print_tree_header m st)).2, hsyms, hlns]
    refine ⟨rfl, ?_⟩
    simp only [RunState.outC] at houts ⊢
    simp [List.filterMap_append, houts]
  refine ⟨hdispatch, ?_, ?_, ?_⟩
  · intro cond thenL st h
    have h0 : (eval_expr cond (print_tree_header (new_if_node cond thenL Node.null) st)).1 = 0 := by
      rw [hcondval]; exact h
    have hA : execute_stmt (new_if_node cond thenL Node.null) st =
        (eval_expr cond (print_tree_header (new_if_node cond thenL Node.null) st)).2 := by
      rw [hdispatch]
      simp [h0, execute_list]
    refine ⟨hA, ?_, ?_⟩
    · rw [hA, (eval_expr_frame cond _).2.1,
        (print_tree_header_frame (new_if_node cond thenL Node.null) st).1]
    · rw [hA, (eval_expr_frame cond _).2.2.2.1,
        (print_tree_header_frame (new_if_node cond thenL Node.null) st).2.2.1]
  · intro cond thenL elseL elseL' st h
    have h1 : (eval_expr cond (print_tree_header (new_if_node cond thenL elseL) st)).1 ≠ 0 := by
      rw [hcondval]; exact h
    have h1' : (eval_expr cond (print_tree_header (new_if_node cond thenL elseL') st)).1 ≠ 0 := by
      rw [hcondval]; exact h
    rw [hdispatch, hdispatch, if_pos h1, if_pos h1']
    exact ⟨by rw [(hsymout thenL cond (new_if_node cond thenL elseL) st).1,
                  (hsymout thenL cond (new_if_node cond thenL elseL') st).1],
           by rw [(hsymout thenL cond (new_if_node cond thenL elseL) st).2,
                  (hsymout thenL cond (new_if_node cond thenL elseL') st).2]⟩
  · intro cond thenL thenL' elseL st h
    have h0 : ¬(eval_expr cond (print_tree_header (new_if_node cond thenL elseL) st)).1 ≠ 0 := by
      rw [hcondval]; simpa using h
    have h0' : ¬(eval_expr cond (print_tree_header (new_if_node cond thenL' elseL) st)).1 ≠ 0 := by
      rw [hcondval]; simpa using h
    rw [hdispatch, hdispatch, if_neg h0, if_neg h0']
    exact ⟨by rw [(hsymout elseL cond (new_if_node cond thenL elseL) st).1,
                  (hsymout elseL cond (new_if_node cond thenL' elseL) st).1],
           by rw [(hsymout elseL cond (new_if_node cond thenL elseL) st).2,
                  (hsymout elseL cond (new_if_node cond thenL' elseL) st).2]⟩

/-- C2 witness: for `if (1 == 1): print(1); else: print(2); end` the
condition evaluates nonzero, and swapping the untaken else branch for
no else at all leaves the effects channel identical. -/
theorem C2_witness :
    (eval_expr (new_op_node "==" (new_int_node 1) (new_int_node 1)) (initState 1)).1 ≠ 0 ∧
    (execute_stmt (new_if_node (new_op_node "==" (new_int_node 1) (new_int_node 1))
          (new_stmtlist_node Node.null (new_print_node (new_int_node 1)))
          (new_stmtlist_node Node.null (new_print_node (new_int_node 2)))) (initState 1)).outC =
      (execute_stmt (new_if_node (new_op_node "==" (new_int_node 1) (new_int_node 1))
          (new_stmtlist_node Node.null (new_print_node (new_int_node 1)))
          Node.null) (initState 1)).outC :=
  ⟨by simp [eval_expr, new_op_node, new_node_kind, new_int_node],
   (C2_if_single_branch.2.2.1
      (new_op_node "==" (new_int_node 1) (new_int_node 1))
      (new_stmtlist_node Node.null (new_print_node (new_int_node 1)))
      (new_stmtlist_node Node.null (new_print_node (new_int_node 2)))
      Node.null (initState 1)
      (by simp [eval_expr, new_op_node, new_node_kind, new_int_node])).2⟩

/-- C9: executing a `Declaration` or `Assignment` whose left child is a
node other than a variable reference reports the malformed-tree
condition on the diagnostics channel (after evaluating the right-hand
expression), leaves the Symbol Store untouched, emits nothing on the
effects channel, and `execute_list` continues with the following
statement as usual. -/
theorem C9_malformed_left_side :
    (∀ (vn en : Node) (st : RunState), vn ≠ Node.null → vn.kind ≠ NKind.N_VAR →
        execute_stmt (new_decl_node vn en) st =
          yyerror "Declaration left side is not a variable"
            (eval_expr en (print_tree_header (new_decl_node vn en) st)).2 ∧
        (execute_stmt (new_decl_node vn en) st).sym = st.sym ∧
        (execute_stmt (new_decl_node vn en) st).outC = st.outC ∧
        (execute_stmt (new_decl_node vn en) st).errC =
          st.errC ++ evalE en st.sym st.yylineno ++
            [errLine "Declaration left side is not a variable" st.yylineno]) ∧
    (∀ (vn en : Node) (st : RunState), vn ≠ Node.null → vn.kind ≠ NKind.N_VAR →
        execute_stmt (new_assign_node vn en) st =
          yyerror "Assignment left side is not a variable"
            (eval_expr en (print_tree_header (new_assign_node vn en) st)).2 ∧
        (execute_stmt (new_assign_node vn en) st).sym = st.sym ∧
        (execute_stmt (new_assign_node vn en) st).outC = st.outC ∧
        (execute_stmt (new_assign_node vn en) st).errC =
          st.errC ++ evalE en st.sym st.yylineno ++
            [errLine "Assignment left side is not a variable" st.yylineno]) ∧
    (∀ (prev stm : Node) (st : RunState),
        execute_list (new_stmtlist_node prev stm) st =
          execute_stmt stm (execute_list prev st)) := by
  refine ⟨?_, ?_, ?_⟩
  · intro vn en st _ hkind
    have heq : execute_stmt (new_decl_node vn en) st =
        yyerror "Declaration left side is not a variable"
          (eval_expr en (print_tree_header (new_decl_node vn en) st)).2 := by
      simp only [new_decl_node, new_node_kind]
      simp only [execute_stmt]
      simp [hkind]
    refine ⟨heq, ?_, ?_, ?_⟩
    · rw [heq]
      simp only [yyerror]
      rw [(eval_expr_frame en _).2.1, (print_tree_header_frame (new_decl_node vn en) st).1]
    · rw [heq]
      have h1 : (yyerror "Declaration left side is not a variable"
          (eval_expr en (print_tree_header (new_decl_node vn en) st)).2).outC =
          (eval_expr en (print_tree_header (new_decl_node vn en) st)).2.outC := by
        simp [yyerror, RunState.outC, List.filterMap_append]
      rw [h1, (eval_expr_frame en _).2.2.2.1,
        (print_tree_header_frame (new_decl_node vn en) st).2.2.1]
    · rw [heq]
      have hlns : (eval_expr en (print_tree_header (new_decl_node vn en) st)).2.yylineno
          = st.yylineno := by
        rw [(eval_expr_frame en _).2.2.1, (print_tree_header_frame (new_decl_node vn en) st).2.1]
      have h1 : (yyerror "Declaration left side is not a variable"
          (eval_expr en (print_tree_header (new_decl_node vn en) st)).2).errC =
          (eval_expr en (print_tree_header (new_decl_node vn en) st)).2.errC ++
            [errLine "Declaration left side is not a variable" st.yylineno] := by
        simp [yyerror, RunState.errC, List.filterMap_append, hlns, errLine]
      rw [h1, (eval_expr_frame en _).2.2.2.2.2,
        (print_tree_header_frame (new_decl_node vn en) st).2.2.2,
        (print_tree_header_frame (new_decl_node vn en) st).1,
        (print_tree_header_frame (new_decl_node vn en) st).2.1]
  · intro vn en st _ hkind
    have heq : execute_stmt (new_assign_node vn en) st =
        yyerror "Assignment left side is not a variable"
          (eval_expr en (print_tree_header (new_assign_node vn en) st)).2 := by
      simp only [new_assign_node, new_node_kind]
      simp only [execute_stmt]
      simp [hkind]
    refine ⟨heq, ?_, ?_, ?_⟩
    · rw [heq]
      simp only [yyerror]
      rw [(eval_expr_frame en _).2.1, (print_tree_header_frame (new_assign_node vn en) st).1]
    · rw [heq]
      have h1 : (yyerror "Assignment left side is not a variable"
          (eval_expr en (print_tree_header (new_assign_node vn en) st)).2).outC =
          (eval_expr en (print_tree_header (new_assign_node vn en) st)).2.outC := by
        simp [yyerror, RunState.outC, List.filterMap_append]
      rw [h1, (eval_expr_frame en _).2.2.2.1,
        (print_tree_header_frame (new_assign_node vn en) st).2.2.1]
    · rw [heq]
      have hlns : (eval_expr en (print_tree_header (new_assign_node vn en) st)).2.yylineno
          = st.yylineno := by
        rw [(eval_expr_frame en _).2.2.1, (print_tree_header_frame (new_assign_node vn en) st).2.1]
      have h1 : (yyerror "Assignment left side is not a variable"
          (eval_expr en (print_tree_header (new_assign_node vn en) st)).2).errC =
          (eval_expr en (print_tree_header (new_assign_node vn en) st)).2.errC ++
            [errLine "Assignment left side is not a variable" st.yylineno] := by
        simp [yyerror, RunState.errC, List.filterMap_append, hlns, errLine]
      rw [h1, (eval_expr_frame en _).2.2.2.2.2,
        (print_tree_header_frame (new_assign_node vn en) st).2.2.2,
        (print_tree_header_frame (new_assign_node vn en) st).1,
        (print_tree_header_frame (new_assign_node vn en) st).2.1]
  · intro prev stm st
    simp [execute_list, new_stmtlist_node, new_node_kind]

/-- C9 witness: `dec` with an integer literal on the left (not a
variable node) leaves the store and the effects channel unchanged. -/
theorem C9_witness :
    new_int_node 5 ≠ Node.null ∧
    (new_int_node 5).kind ≠ NKind.N_VAR ∧
    (execute_stmt (new_decl_node (new_int_node 5) (new_int_node 7)) (initState 1)).sym =
      (initState 1).sym ∧
    (execute_stmt (new_decl_node (new_int_node 5) (new_int_node 7)) (initState 1)).outC =
      (initState 1).outC :=
  ⟨by decide, by decide,
   (C9_malformed_left_side.1 (new_int_node 5) (new_int_node 7) (initState 1)
      (by decide) (by decide)).2.1,
   (C9_malformed_left_side.1 (new_int_node 5) (new_int_node 7) (initState 1)
      (by decide) (by decide)).2.2.1⟩

set_option maxHeartbeats 1000000 in
/-- C7: a `BinaryOp` node always evaluates its left operand first and
then its right operand in the resulting state — for every operator
label, known or not, and all operand values (no short-circuiting; the
final state extends the state reached after both operand evaluations) —
then the four arithmetic operators return the numeric result (`/` when
the divisor is nonzero, as C truncating division) and the six comparison
operators return exactly 0 or 1. -/
theorem C7_binop_strict_eval :
    (∀ (l r : Node) (st : RunState),
        eval_expr (new_op_node "+" l r) st =
          ((eval_expr l st).1 + (eval_expr r (eval_expr l st).2).1,
           (eval_expr r (eval_expr l st).2).2)) ∧
    (∀ (l r : Node) (st : RunState),
        eval_expr (new_op_node "-" l r) st =
          ((eval_expr l st).1 - (eval_expr r (eval_expr l st).2).1,
           (eval_expr r (eval_expr l st).2).2)) ∧
    (∀ (l r : Node) (st : RunState),
        eval_expr (new_op_node "*" l r) st =
          ((eval_expr l st).1 * (eval_expr r (eval_expr l st).2).1,
           (eval_expr r (eval_expr l st).2).2)) ∧
    (∀ (l r : Node) (st : RunState),
        (eval_expr r (eval_expr l st).2).1 ≠ 0 →
        eval_expr (new_op_node "/" l r) st =
          ((eval_expr l st).1.tdiv (eval_expr r (eval_expr l st).2).1,
           (eval_expr r (eval_expr l st).2).2)) ∧
    (∀ (l r : Node) (st : RunState),
        eval_expr (new_op_node "==" l r) st =
          ((if (eval_expr l st).1 = (eval_expr r (eval_expr l st).2).1 then 1 else 0),
           (eval_expr r (eval_expr l st).2).2)) ∧
    (∀ (l r : Node) (st : RunState),
        eval_expr (new_op_node "!=" l r) st =
          ((if (eval_expr l st).1 ≠ (eval_expr r (eval_expr l st).2).1 then 1 else 0),
           (eval_expr r (eval_expr l st).2).2)) ∧
    (∀ (l r : Node) (st : RunState),
        eval_expr (new_op_node "<=" l r) st =
          ((if (eval_expr l st).1 ≤ (eval_expr r (eval_expr l st).2).1 then 1 else 0),
           (eval_expr r (eval_expr l st).2).2)) ∧
    (∀ (l r : Node) (st : RunState),
        eval_expr (new_op_node ">=" l r) st =
          ((if (eval_expr l st).1 ≥ (eval_expr r (eval_expr l st).2).1 then 1 else 0),
           (eval_expr r (eval_expr l st).2).2)) ∧
    (∀ (l r : Node) (st : RunState),
        eval_expr (new_op_node "<" l r) st =
          ((if (eval_expr l st).1 < (eval_expr r (eval_expr l st).2).1 then 1 else 0),
           (eval_expr r (eval_expr l st).2).2)) ∧
    (∀ (l r : Node) (st : RunState),
        eval_expr (new_op_node ">" l r) st =
          ((if (eval_expr l st).1 > (eval_expr r (eval_expr l st).2).1 then 1 else 0),
           (eval_expr r (eval_expr l st).2).2)) ∧
    (∀ (lbl : String) (l r : Node) (st : RunState),
        ∃ (v : Int) (es : List Event),
          eval_expr (new_op_node lbl l r) st =
            (v, { (eval_expr r (eval_expr l st).2).2 with
                  events := (eval_expr r (eval_expr l st).2).2.events ++ es })) ∧
    (∀ (c : String) (l r : Node) (st : RunState),
        c ∈ ["==", "!=", "<=", ">=", "<", ">"] →
        (eval_expr (new_op_node c l r) st).1 = 0 ∨
        (eval_expr (new_op_node c l r) st).1 = 1) := by
  have hadd : ∀ (l r : Node) (st : RunState),
      eval_expr (new_op_node "+" l r) st =
        ((eval_expr l st).1 + (eval_expr r (eval_expr l st).2).1,
         (eval_expr r (eval_expr l st).2).2) := by
    intro l r st
    simp only [new_op_node, new_node_kind]
    simp only [eval_expr]
    simp
  have hsub : ∀ (l r : Node) (st : RunState),
      eval_expr (new_op_node "-" l r) st =
        ((eval_expr l st).1 - (eval_expr r (eval_expr l st).2).1,
         (eval_expr r (eval_expr l st).2).2) := by
    intro l r st
    simp only [new_op_node, new_node_kind]
    simp only [eval_expr]
    simp
  have hmul : ∀ (l r : Node) (st : RunState),
      eval_expr (new_op_node "*" l r) st =
        ((eval_expr l st).1 * (eval_expr r (eval_expr l st).2).1,
         (eval_expr r (eval_expr l st).2).2) := by
    intro l r st
    simp only [new_op_node, new_node_kind]
    simp only [eval_expr]
    simp
  have hdiv : ∀ (l r : Node) (st : RunState),
      (eval_expr r (eval_expr l st).2).1 ≠ 0 →
      eval_expr (new_op_node "/" l r) st =
        ((eval_expr l st).1.tdiv (eval_expr r (eval_expr l st).2).1,
         (eval_expr r (eval_expr l st).2).2) := by
    intro l r st h
    simp only [new_op_node, new_node_kind]
    simp only [eval_expr]
    simp [h]
  have heqv : ∀ (l r : Node) (st : RunState),
      eval_expr (new_op_node "==" l r) st =
        ((if (eval_expr l st).1 = (eval_expr r (eval_expr l st).2).1 then 1 else 0),
         (eval_expr r (eval_expr l st).2).2) := by
    intro l r st
    simp only [new_op_node, new_node_kind]
    simp only [eval_expr]
    simp
  have hnev : ∀ (l r : Node) (st : RunState),
      eval_expr (new_op_node "!=" l r) st =
        ((if (eval_expr l st).1 ≠ (eval_expr r (eval_expr l st).2).1 then 1 else 0),
         (eval_expr r (eval_expr l st).2).2) := by
    intro l r st
    simp only [new_op_node, new_node_kind]
    simp only [eval_expr]
    simp
  have hlev : ∀ (l r : Node) (st : RunState),
      eval_expr (new_op_node "<=" l r) st =
        ((if (eval_expr l st).1 ≤ (eval_expr r (eval_expr l st).2).1 then 1 else 0),
         (eval_expr r (eval_expr l st).2).2) := by
    intro l r st
    simp only [new_op_node, new_node_kind]
    simp only [eval_expr]
    simp
  have hgev : ∀ (l r : Node) (st : RunState),
      eval_expr (new_op_node ">=" l r) st =
        ((if (eval_expr l st).1 ≥ (eval_expr r (eval_expr l st).2).1 then 1 else 0),
         (eval_expr r (eval_expr l st).2).2) := by
    intro l r st
    simp only [new_op_node, new_node_kind]
    simp only [eval_expr]
    simp
  have hltv : ∀ (l r : Node) (st : RunState),
      eval_expr (new_op_node "<" l r) st =
        ((if (eval_expr l st).1 < (eval_expr r (eval_expr l st).2).1 then 1 else 0),
         (eval_expr r (eval_expr l st).2).2) := by
    intro l r st
    simp only [new_op_node, new_node_kind]
    simp only [eval_expr]
    simp
  have hgtv : ∀ (l r : Node) (st : RunState),
      eval_expr (new_op_node ">" l r) st =
        ((if (eval_expr l st).1 > (eval_expr r (eval_expr l st).2).1 then 1 else 0),
         (eval_expr r (eval_expr l st).2).2) := by
    intro l r st
    simp only [new_op_node, new_node_kind]
    simp only [eval_expr]
    simp
  have hE : ∀ (lbl : String) (l r : Node) (s : List Int) (ln : Int),
      ∃ extra, evalE (Node.mk lbl l r NKind.N_OP 0 (-1)) s ln =
        (evalE l s ln ++ evalE r s ln) ++ extra := by
    intro lbl l r s ln
    simp only [evalE]
    split_ifs <;>
      first
      | exact ⟨[errLine "Division by zero" ln], rfl⟩
      | exact ⟨[errLine "Unknown operator in eval_expr" ln], rfl⟩
      | exact ⟨[], (List.append_nil _).symm⟩
  have hgen : ∀ (lbl : String) (l r : Node) (st : RunState),
      ∃ (v : Int) (es : List Event),
        eval_expr (new_op_node lbl l r) st =
          (v, { (eval_expr r (eval_expr l st).2).2 with
                events := (eval_expr r (eval_expr l st).2).2.events ++ es }) := by
    intro lbl l r st
    obtain ⟨extra, hx⟩ := hE lbl l r st.sym st.yylineno
    refine ⟨evalV (Node.mk lbl l r NKind.N_OP 0 (-1)) st.sym, extra.map Event.err, ?_⟩
    rw [show new_op_node lbl l r = Node.mk lbl l r NKind.N_OP 0 (-1) from rfl]
    rw [eval_expr_decomp]
    have h2 : (eval_expr r (eval_expr l st).2).2 =
        { st with events := st.events ++
            (evalE l st.sym st.yylineno ++ evalE r st.sym st.yylineno).map Event.err } := by
      rw [eval_expr_decomp l st, eval_expr_decomp r]
      simp [List.append_assoc]
    rw [h2, hx]
    simp [List.append_assoc]
  have h01 : ∀ (c : String) (l r : Node) (st : RunState),
      c ∈ ["==", "!=", "<=", ">=", "<", ">"] →
      (eval_expr (new_op_node c l r) st).1 = 0 ∨
      (eval_expr (new_op_node c l r) st).1 = 1 := by
    intro c l r st hc
    simp only [List.mem_cons, List.mem_singleton] at hc
    rcases hc with h | h | h | h | h | h | h
    · subst h; rw [heqv]; split <;> simp
    · subst h; rw [hnev]; split <;> simp
    · subst h; rw [hlev]; split <;> simp
    · subst h; rw [hgev]; split <;> simp
    · subst h; rw [hltv]; split <;> simp
    · subst h; rw [hgtv]; split <;> simp
    · simp at h
  exact ⟨hadd, hsub, hmul, hdiv, heqv, hnev, hlev, hgev, hltv, hgtv, hgen, h01⟩

/-- C7 witness: `6 / 3` evaluates to 2 with the state threaded through
both operands, and `3 < 3` evaluates to 0 (a comparison yields 0 or 1). -/
theorem C7_witness :
    (eval_expr (new_int_node 3) (eval_expr (new_int_node 6) (initState 1)).2).1 ≠ 0 ∧
    eval_expr (new_op_node "/" (new_int_node 6) (new_int_node 3)) (initState 1) =
      ((eval_expr (new_int_node 6) (initState 1)).1.tdiv
         (eval_expr (new_int_node 3) (eval_expr (new_int_node 6) (initState 1)).2).1,
       (eval_expr (new_int_node 3) (eval_expr (new_int_node 6) (initState 1)).2).2) ∧
    ("<" : String) ∈ (["==", "!=", "<=", ">=", "<", ">"] : List String) ∧
    ((eval_expr (new_op_node "<" (new_int_node 3) (new_int_node 3)) (initState 1)).1 = 0 ∨
     (eval_expr (new_op_node "<" (new_int_node 3) (new_int_node 3)) (initState 1)).1 = 1) :=
  ⟨by simp [eval_expr, new_int_node],
   C7_binop_strict_eval.2.2.2.1 (new_int_node 6) (new_int_node 3) (initState 1)
     (by simp [eval_expr, new_int_node]),
   by decide,
   C7_binop_strict_eval.2.2.2.2.2.2.2.2.2.2.2 "<" (new_int_node 3) (new_int_node 3) (initState 1)
     (by decide)⟩

/-- C4: execution appends to the trace channel exactly one rendered
block per executed statement — the blocks are the renderings of the
executed-statement roots, in order; each executed statement's own block
is written before any of its effect events; and for an executed `if`
only the taken branch's statements are ever rendered as blocks of their
own: the untaken branch contributes none. -/
theorem C4_trace_per_executed_statement :
    (∀ (n : Node) (st : RunState),
        (execute_stmt n st).treeC =
          st.treeC ++ ((execD_stmt n st.sym st.yylineno).2.2).map renderBlock) ∧
    (∀ (n : Node) (st : RunState),
        (execute_list n st).treeC =
          st.treeC ++ ((execD_list n st.sym st.yylineno).2.2).map renderBlock) ∧
    (∀ (n : Node) (st : RunState), n ≠ Node.null →
        ∃ rest, (execute_stmt n st).events =
          st.events ++ Event.tree (renderBlock n) :: rest) ∧
    (∀ (cond thenL elseL : Node) (st : RunState),
        (eval_expr cond st).1 ≠ 0 →
        (execD_stmt (new_if_node cond thenL elseL) st.sym st.yylineno).2.2 =
          new_if_node cond thenL elseL :: (execD_list thenL st.sym st.yylineno).2.2) ∧
    (∀ (cond thenL elseL : Node) (st : RunState),
        (eval_expr cond st).1 = 0 →
        (execD_stmt (new_if_node cond thenL elseL) st.sym st.yylineno).2.2 =
          new_if_node cond thenL elseL :: (execD_list elseL st.sym st.yylineno).2.2) := by
  refine ⟨?_, ?_, ?_, ?_, ?_⟩
  · intro n st
    rw [(exec_decomp n).1 st]
    simp only [RunState.treeC, List.filterMap_append]
    rw [(execD_tree_blocks n st.sym st.yylineno).1]
  · intro n st
    rw [(exec_decomp n).2 st]
    simp only [RunState.treeC, List.filterMap_append]
    rw [(execD_tree_blocks n st.sym st.yylineno).2]
  · intro n st hn
    cases n with
    | null => exact absurd rfl hn
    | mk label left right kind iv vid =>
        refine ⟨((execD_stmt (Node.mk label left right kind iv vid) st.sym st.yylineno).2.1).tail, ?_⟩
        rw [(exec_decomp (Node.mk label left right kind iv vid)).1 st]
        rw [execD_stmt.eq_def]
        simp
  · intro cond thenL elseL st h
    have h' : evalV cond st.sym ≠ 0 := by
      rw [← (eval_expr_frame cond st).1]; exact h
    rw [show new_if_node cond thenL elseL =
        Node.mk "if" cond (Node.mk "branches" thenL elseL NKind.N_BRANCHES 0 (-1))
          NKind.N_IF 0 (-1) from rfl]
    simp only [execD_stmt]
    simp [h']
  · intro cond thenL elseL st h
    have h' : evalV cond st.sym = 0 := by
      rw [← (eval_expr_frame cond st).1]; exact h
    rw [show new_if_node cond thenL elseL =
        Node.mk "if" cond (Node.mk "branches" thenL elseL NKind.N_BRANCHES 0 (-1))
          NKind.N_IF 0 (-1) from rfl]
    simp only [execD_stmt]
    simp [h']

/-- C4 witness: a bare `print` statement's run begins with its own
rendered block, and for `if (1): ... else: print(2); end` (condition
nonzero, then branch empty) the rendered roots are the `if` node
followed by the taken (empty) branch's roots only. -/
theorem C4_witness :
    new_print_node (new_int_node 1) ≠ Node.null ∧
    (∃ rest, (execute_stmt (new_print_node (new_int_node 1)) (initState 1)).events =
        (initState 1).events ++
          Event.tree (renderBlock (new_print_node (new_int_node 1))) :: rest) ∧
    (eval_expr (new_int_node 1) (initState 1)).1 ≠ 0 ∧
    (execD_stmt (new_if_node (new_int_node 1) Node.null
          (new_stmtlist_node Node.null (new_print_node (new_int_node 2))))
        (initState 1).sym (initState 1).yylineno).2.2 =
      new_if_node (new_int_node 1) Node.null
          (new_stmtlist_node Node.null (new_print_node (new_int_node 2))) ::
        (execD_list Node.null (initState 1).sym (initState 1).yylineno).2.2 :=
  ⟨by decide,
   C4_trace_per_executed_statement.2.2.1 (new_print_node (new_int_node 1)) (initState 1)
     (by decide),
   by simp [eval_expr, new_int_node],
   C4_trace_per_executed_statement.2.2.2.1 (new_int_node 1) Node.null
     (new_stmtlist_node Node.null (new_print_node (new_int_node 2))) (initState 1)
     (by simp [eval_expr, new_int_node])⟩
